import Mathlib

/-
Verification development for the continuum-intelligence analysis scripts.

The repository contains two script variants of an automated narrative
analysis runner plus a batch runner:

* a "simulated" variant that draws prices from a random source and
  classifies the simulated daily change;
* a "real-prices" variant that reads per-ticker data (price, optional
  previous price, price history), computes the daily return and the
  drawdown from peak, classifies a severity, and derives weights,
  a pattern and an inference from the severity;
* `run-automated-analysis.js`, a batch runner that builds price data with
  JavaScript `||` fallbacks, iterates the tickers, records per-ticker
  errors and sets the process exit code from the critical count.

All numeric code is embedded over ℚ.  JavaScript `toFixed(n)` followed by
`parseFloat` is modelled as rounding to n decimal places, half toward +∞
(the ECMAScript `toFixed` tie-break picks the larger candidate integer).
JavaScript `a || b` on numbers treats 0 and undefined as falsy; it is
modelled by `jsOrQ` on `Option ℚ`.
-/

namespace Continuum

/-- Severity buckets used by the scripts (the runner also knows MODERATE). -/
inductive Sev
  | NORMAL
  | MODERATE
  | HIGH
  | CRITICAL
deriving DecidableEq, Repr

/-- Dislocation patterns emitted by the two variants. -/
inductive Pattern
  | NORMAL
  | GAP_DOWN
  | DISTRIBUTION
deriving DecidableEq, Repr

/-- Confidence labels on weight records. -/
inductive Conf
  | LOW
  | MEDIUM
  | HIGH
deriving DecidableEq, Repr

/-- Hypothesis tags T1..T4. -/
inductive Tag
  | T1
  | T2
  | T3
  | T4
deriving DecidableEq, Repr

/-- Embeds `x.toFixed(2)` then `parseFloat`: round to 2 decimals, ties toward +∞. -/
def toFixed2 (x : ℚ) : ℚ := (⌊x * 100 + 1/2⌋ : ℚ) / 100

/-- Embeds `x.toFixed(1)` then `parseFloat`: round to 1 decimal, ties toward +∞. -/
def toFixed1 (x : ℚ) : ℚ := (⌊x * 10 + 1/2⌋ : ℚ) / 10

/-- Evaluation rule for `toFixed2` from the floor characterisation. -/
lemma toFixed2_eval {x r : ℚ} {n : ℤ} (h1 : (n : ℚ) ≤ x * 100 + 1/2)
    (h2 : x * 100 + 1/2 < (n : ℚ) + 1) (h3 : (n : ℚ) / 100 = r) :
    toFixed2 x = r := by
  unfold toFixed2
  rw [Int.floor_eq_iff.mpr ⟨h1, h2⟩, h3]

/-- Evaluation rule for `toFixed1` from the floor characterisation. -/
lemma toFixed1_eval {x r : ℚ} {n : ℤ} (h1 : (n : ℚ) ≤ x * 10 + 1/2)
    (h2 : x * 10 + 1/2 < (n : ℚ) + 1) (h3 : (n : ℚ) / 10 = r) :
    toFixed1 x = r := by
  unfold toFixed1
  rw [Int.floor_eq_iff.mpr ⟨h1, h2⟩, h3]

/-- Embeds `((currentPrice - previousPrice) / previousPrice * 100).toFixed(2)`. -/
def todayReturnPct (current previous : ℚ) : ℚ :=
  toFixed2 ((current - previous) / previous * 100)

/-- Embeds `((currentPrice - peakPrice) / peakPrice * 100).toFixed(1)`. -/
def drawdownPct (current peak : ℚ) : ℚ :=
  toFixed1 ((current - peak) / peak * 100)

/-- Severity cascade of the real-prices variant:
`CRITICAL` if `|change| > 8 || drawdown < -40`, else `HIGH` if
`|change| > 5 || drawdown < -25`, else `NORMAL`. -/
def severityOf (ret dd : ℚ) : Sev :=
  if |ret| > 8 ∨ dd < -40 then .CRITICAL
  else if |ret| > 5 ∨ dd < -25 then .HIGH
  else .NORMAL

/-- The arithmetic core of the real-prices variant on explicit price facts:
daily return, drawdown and severity from current, previous and peak price. -/
def classifyFacts (current previous peak : ℚ) : ℚ × ℚ × Sev :=
  let ret := todayReturnPct current previous
  let dd := drawdownPct current peak
  (ret, dd, severityOf ret dd)

/-- Severity cascade of the simulated variant (no drawdown input):
`CRITICAL` if `|change| > 8`, else `HIGH` if `|change| > 5`, else `NORMAL`. -/
def simSeverity (ret : ℚ) : Sev :=
  if |ret| > 8 then .CRITICAL
  else if |ret| > 5 then .HIGH
  else .NORMAL

/-- Pattern of the real-prices variant:
`severity === CRITICAL ? DISTRIBUTION : NORMAL`. -/
def patternReal (s : Sev) : Pattern :=
  if s = .CRITICAL then .DISTRIBUTION else .NORMAL

/-- Pattern of the simulated variant: `Math.abs(change) > 5 ? GAP_DOWN : NORMAL`. -/
def simPattern (ret : ℚ) : Pattern :=
  if |ret| > 5 then .GAP_DOWN else .NORMAL

/-- C1: the real-prices severity is classified by the ordered cascade with
first match winning — CRITICAL iff |return| > 8 or drawdown < -40, HIGH iff
not CRITICAL and (|return| > 5 or drawdown < -25), otherwise NORMAL — and the
return comparisons are strict, so |return| exactly 8 is not CRITICAL and
exactly 5 is not HIGH whenever the drawdown disjunct does not fire. -/
theorem C1_severity_first_match :
    (∀ ret dd : ℚ, severityOf ret dd = Sev.CRITICAL ↔ (|ret| > 8 ∨ dd < -40)) ∧
    (∀ ret dd : ℚ, severityOf ret dd = Sev.HIGH ↔
      (¬(|ret| > 8 ∨ dd < -40) ∧ (|ret| > 5 ∨ dd < -25))) ∧
    (∀ ret dd : ℚ, severityOf ret dd = Sev.NORMAL ↔
      (¬(|ret| > 8 ∨ dd < -40) ∧ ¬(|ret| > 5 ∨ dd < -25))) ∧
    (∀ ret dd : ℚ, |ret| = 8 → -40 ≤ dd → severityOf ret dd ≠ Sev.CRITICAL) ∧
    (∀ ret dd : ℚ, |ret| = 5 → -25 ≤ dd → severityOf ret dd ≠ Sev.HIGH) := by
  refine ⟨?_, ?_, ?_, ?_, ?_⟩
  · intro ret dd
    unfold severityOf
    split_ifs with h1 h2 <;> simp_all
  · intro ret dd
    unfold severityOf
    split_ifs with h1 h2 <;> simp_all
  · intro ret dd
    unfold severityOf
    split_ifs with h1 h2 <;> simp_all
  · intro ret dd h8 h40
    unfold severityOf
    have hnot : ¬ (|ret| > 8 ∨ dd < -40) := by
      push_neg
      exact ⟨le_of_eq h8, h40⟩
    rw [if_neg hnot]
    split_ifs <;> simp
  · intro ret dd h5 h25
    unfold severityOf
    have hnot1 : ¬ (|ret| > 8 ∨ dd < -40) := by
      push_neg
      constructor
      · rw [h5]; norm_num
      · linarith
    have hnot2 : ¬ (|ret| > 5 ∨ dd < -25) := by
      push_neg
      exact ⟨le_of_eq h5, h25⟩
    rw [if_neg hnot1, if_neg hnot2]
    simp

/-- Witness for C1 at concrete boundary inputs: |8| is not CRITICAL and
|-5| is not HIGH when the drawdown is 0. -/
theorem C1_severity_first_match_witness :
    severityOf 8 0 ≠ Sev.CRITICAL ∧ severityOf (-5) 0 ≠ Sev.HIGH :=
  ⟨C1_severity_first_match.2.2.2.1 8 0
      (abs_of_nonneg (by norm_num)) (by norm_num),
   C1_severity_first_match.2.2.2.2 (-5) 0
      (by rw [abs_of_nonpos (by norm_num : (-5 : ℚ) ≤ 0)]; norm_num) (by norm_num)⟩

lemma todayReturn_92_100 : todayReturnPct 92 100 = -8 := by
  unfold todayReturnPct
  have h : ((92 : ℚ) - 100) / 100 * 100 = -8 := by norm_num
  rw [h]
  exact @toFixed2_eval (-8) (-8) (-800) (by norm_num) (by norm_num) (by norm_num)

lemma drawdown_92_100 : drawdownPct 92 100 = -8 := by
  unfold drawdownPct
  have h : ((92 : ℚ) - 100) / 100 * 100 = -8 := by norm_num
  rw [h]
  exact @toFixed1_eval (-8) (-8) (-80) (by norm_num) (by norm_num) (by norm_num)

lemma severity_neg8_neg8 : severityOf (-8) (-8) = Sev.HIGH := by
  unfold severityOf
  rw [abs_of_nonpos (by norm_num : (-8 : ℚ) ≤ 0)]
  norm_num

lemma classifyFacts_92_100_100 : classifyFacts 92 100 100 = (-8, -8, Sev.HIGH) := by
  show (todayReturnPct 92 100, drawdownPct 92 100,
      severityOf (todayReturnPct 92 100) (drawdownPct 92 100)) = (-8, -8, Sev.HIGH)
  rw [todayReturn_92_100, drawdown_92_100, severity_neg8_neg8]

/-- C3 counterexample: at currentPrice 92, previousPrice 100, peakPrice 100
the code computes todayReturnPct = -8.00 but the severity is HIGH, not
CRITICAL as the claim states. -/
theorem C3_crit_boundary_counterexample :
    (classifyFacts 92 100 100).1 = -8 ∧
    (classifyFacts 92 100 100).2.2 = Sev.HIGH ∧
    (classifyFacts 92 100 100).2.2 ≠ Sev.CRITICAL := by
  rw [classifyFacts_92_100_100]
  refine ⟨rfl, rfl, by simp⟩

/-- C3 amended: at currentPrice 92, previousPrice 100, peakPrice 100 the
classifier computes todayReturnPct = -8.00 and drawdownPct = -8.0 and returns
severity HIGH — exactly 8 is not CRITICAL under the strict comparison, and
the input falls through to the HIGH branch via |return| > 5. -/
theorem C3_crit_boundary_amended :
    classifyFacts 92 100 100 = (-8, -8, Sev.HIGH) :=
  classifyFacts_92_100_100

/-- One hypothesis weight record. -/
structure WeightRecord where
  longTerm : ℚ
  shortTerm : ℚ
  blended : ℚ
  confidence : Conf
deriving DecidableEq, Repr

/-- The four weight records T1..T4 as one object. -/
structure Weights where
  T1 : WeightRecord
  T2 : WeightRecord
  T3 : WeightRecord
  T4 : WeightRecord
deriving DecidableEq, Repr

/-- Look a weight record up by tag. -/
def Weights.get (w : Weights) : Tag → WeightRecord
  | .T1 => w.T1
  | .T2 => w.T2
  | .T3 => w.T3
  | .T4 => w.T4

/-- Weights of the real-prices variant, a function of severity only. -/
def weightsReal (s : Sev) : Weights :=
  { T1 := { longTerm := 60, shortTerm := if s = .CRITICAL then 40 else 55,
            blended := if s = .CRITICAL then 52 else 58, confidence := .MEDIUM }
    T2 := { longTerm := 35, shortTerm := if s = .CRITICAL then 75 else 40,
            blended := if s = .CRITICAL then 51 else 37,
            confidence := if s = .CRITICAL then .HIGH else .MEDIUM }
    T3 := { longTerm := 20, shortTerm := if s = .CRITICAL then 65 else 25,
            blended := if s = .CRITICAL then 38 else 22,
            confidence := if s = .CRITICAL then .HIGH else .MEDIUM }
    T4 := { longTerm := 50, shortTerm := if s = .CRITICAL then 15 else 45,
            blended := if s = .CRITICAL then 36 else 48,
            confidence := if s = .CRITICAL then .LOW else .MEDIUM } }

/-- Inference block of the real-prices variant, a function of severity only. -/
structure Inference where
  primaryHypothesis : Tag
  secondaryHypothesis : Option Tag
  contradictedHypothesis : Option Tag
  confidence : ℚ
deriving DecidableEq, Repr

/-- Embeds `severity === CRITICAL ? (T2, T3, T4, 0.85) : (T1, null, null, 0.6)`. -/
def inferenceReal (s : Sev) : Inference :=
  { primaryHypothesis := if s = .CRITICAL then .T2 else .T1
    secondaryHypothesis := if s = .CRITICAL then some .T3 else none
    contradictedHypothesis := if s = .CRITICAL then some .T4 else none
    confidence := if s = .CRITICAL then 85/100 else 6/10 }

/-- Metrics block of the real-prices variant. -/
structure Metrics where
  currentPrice : ℚ
  todayReturn : ℚ
  drawdownFromPeak : ℚ
  zScore : ℚ
  volumeRatio : ℚ
deriving DecidableEq, Repr

/-- Dislocation block: severity, metrics and pattern. -/
structure Dislocation where
  severity : Sev
  metrics : Metrics
  pattern : Pattern
deriving DecidableEq, Repr

/-- Full per-ticker result of the real-prices variant. -/
structure AnalysisResult where
  dislocation : Dislocation
  weights : Weights
  inference : Inference
deriving DecidableEq, Repr

/-- Per-ticker input of the real-prices variant: `data.price`,
optional `data.previousPrice` (set only from the live-price overlay) and
`data.priceHistory`. -/
structure TickerData where
  price : ℚ
  previousPrice : Option ℚ
  priceHistory : List ℚ

/-- JavaScript `a || b` on an optional number: 0 and undefined are falsy. -/
def jsOrQ (x : Option ℚ) (d : ℚ) : ℚ :=
  match x with
  | some v => if v = 0 then d else v
  | none => d

/-- Embeds `data.previousPrice || currentPrice * 1.1` (real-prices variant). -/
def realPrev (d : TickerData) : ℚ := jsOrQ d.previousPrice (d.price * (11/10))

/-- Embeds `Math.max(...data.priceHistory, currentPrice * 2.5)` (real-prices variant). -/
def realPeak (d : TickerData) : ℚ := d.priceHistory.foldr max (d.price * (5/2))

/-- Daily return of the real-prices variant. -/
def realChange (d : TickerData) : ℚ := todayReturnPct d.price (realPrev d)

/-- Drawdown of the real-prices variant. -/
def realDrawdown (d : TickerData) : ℚ := drawdownPct d.price (realPeak d)

/-- Severity of the real-prices variant. -/
def realSeverity (d : TickerData) : Sev := severityOf (realChange d) (realDrawdown d)

/-- Full per-ticker analysis of the real-prices variant.  The script has a
random source available (`Math.random`) but this variant never samples it;
the `rand` argument records that and is unused. -/
def analyzeTickerReal (rand : ℕ → ℚ) (d : TickerData) : AnalysisResult :=
  { dislocation :=
      { severity := realSeverity d
        metrics :=
          { currentPrice := d.price
            todayReturn := realChange d
            drawdownFromPeak := realDrawdown d
            zScore := if realSeverity d = .CRITICAL then -(5/2) else -(1/2)
            volumeRatio := if realSeverity d = .CRITICAL then 11/5 else 1 }
        pattern := patternReal (realSeverity d) }
    weights := weightsReal (realSeverity d)
    inference := inferenceReal (realSeverity d) }

/-- Embeds `100 + Math.random() * 200` (simulated variant, draw 0). -/
def simCurrent (rand : ℕ → ℚ) : ℚ := 100 + rand 0 * 200

/-- Embeds `currentPrice * (1 + (Math.random() - 0.5) * 0.1)` (draw 1). -/
def simPrevious (rand : ℕ → ℚ) : ℚ :=
  simCurrent rand * (1 + (rand 1 - 1/2) * (1/10))

/-- Daily change of the simulated variant. -/
def simChange (rand : ℕ → ℚ) : ℚ :=
  todayReturnPct (simCurrent rand) (simPrevious rand)

/-- Metrics block of the simulated variant. -/
structure SimMetrics where
  todayReturn : ℚ
  zScore : ℚ
  volumeRatio : ℚ
deriving DecidableEq, Repr

/-- Dislocation block of the simulated variant. -/
structure SimDislocation where
  severity : Sev
  metrics : SimMetrics
  pattern : Pattern
deriving DecidableEq, Repr

/-- Inference block of the simulated variant (no secondary/contradicted). -/
structure SimInference where
  primaryHypothesis : Tag
  confidence : ℚ
deriving DecidableEq, Repr

/-- Full per-ticker result of the simulated variant. -/
structure SimResult where
  dislocation : SimDislocation
  weights : Weights
  inference : SimInference
deriving DecidableEq, Repr

/-- Full per-ticker analysis of the simulated variant, as a function of the
random draws it consumes (draw indices 0..7 in evaluation order). -/
def analyzeTickerSim (rand : ℕ → ℚ) : SimResult :=
  { dislocation :=
      { severity := simSeverity (simChange rand)
        metrics :=
          { todayReturn := simChange rand
            zScore := toFixed2 (rand 2 * 3)
            volumeRatio := toFixed2 (1 + rand 3 * 2) }
        pattern := simPattern (simChange rand) }
    weights :=
      { T1 := { longTerm := 50, shortTerm := 45 + rand 4 * 20, blended := 50,
                confidence := .HIGH }
        T2 := { longTerm := 30, shortTerm := 30 + rand 5 * 30, blended := 40,
                confidence := .MEDIUM }
        T3 := { longTerm := 20, shortTerm := 20 + rand 6 * 40, blended := 35,
                confidence := if simSeverity (simChange rand) = .CRITICAL
                              then .LOW else .MEDIUM }
        T4 := { longTerm := 40, shortTerm := 30 + rand 7 * 20, blended := 38,
                confidence := .MEDIUM } }
    inference :=
      { primaryHypothesis := if simSeverity (simChange rand) = .CRITICAL
                             then .T2 else .T1
        confidence := 3/4 } }

lemma simCurrent_zero : simCurrent (fun _ => 0) = 100 := by
  norm_num [simCurrent]

lemma simPrevious_zero : simPrevious (fun _ => 0) = 95 := by
  simp only [simPrevious, simCurrent_zero]
  norm_num

lemma simChange_zero : simChange (fun _ => 0) = 263/50 := by
  rw [simChange, simCurrent_zero, simPrevious_zero]
  unfold todayReturnPct
  have h : ((100 : ℚ) - 95) / 95 * 100 = 100/19 := by norm_num
  rw [h]
  exact @toFixed2_eval (100/19) (263/50) 526 (by norm_num) (by norm_num) (by norm_num)

lemma simSeverity_zero : simSeverity (simChange (fun _ => 0)) = Sev.HIGH := by
  rw [simChange_zero]
  unfold simSeverity
  rw [abs_of_nonneg (by norm_num : (0 : ℚ) ≤ 263/50)]
  norm_num

lemma simCurrent_half : simCurrent (fun _ => 1/2) = 200 := by
  norm_num [simCurrent]

lemma simPrevious_half : simPrevious (fun _ => 1/2) = 200 := by
  simp only [simPrevious, simCurrent_half]
  norm_num

lemma simChange_half : simChange (fun _ => 1/2) = 0 := by
  rw [simChange, simCurrent_half, simPrevious_half]
  unfold todayReturnPct
  have h : ((200 : ℚ) - 200) / 200 * 100 = 0 := by norm_num
  rw [h]
  exact @toFixed2_eval 0 0 0 (by norm_num) (by norm_num) (by norm_num)

lemma simSeverity_half : simSeverity (simChange (fun _ => 1/2)) = Sev.NORMAL := by
  rw [simChange_half]
  unfold simSeverity
  rw [abs_of_nonneg (by norm_num : (0 : ℚ) ≤ 0)]
  norm_num

/-- C4 counterexample: in the simulated variant with all random draws 0, the
produced T2 weight record has longTerm = shortTerm = 30 but blended = 40,
which is outside [min(longTerm, shortTerm), max(longTerm, shortTerm)]. -/
theorem C4_blended_counterexample :
    (analyzeTickerSim (fun _ => 0)).weights.T2.longTerm = 30 ∧
    (analyzeTickerSim (fun _ => 0)).weights.T2.shortTerm = 30 ∧
    (analyzeTickerSim (fun _ => 0)).weights.T2.blended = 40 ∧
    ¬ (min ((analyzeTickerSim (fun _ => 0)).weights.T2.longTerm)
          ((analyzeTickerSim (fun _ => 0)).weights.T2.shortTerm) ≤
        (analyzeTickerSim (fun _ => 0)).weights.T2.blended ∧
       (analyzeTickerSim (fun _ => 0)).weights.T2.blended ≤
        max ((analyzeTickerSim (fun _ => 0)).weights.T2.longTerm)
          ((analyzeTickerSim (fun _ => 0)).weights.T2.shortTerm)) := by
  have hl : (analyzeTickerSim (fun _ => 0)).weights.T2.longTerm = 30 := rfl
  have hs : (analyzeTickerSim (fun _ => 0)).weights.T2.shortTerm = 30 := by
    show (30 : ℚ) + 0 * 30 = 30
    norm_num
  have hb : (analyzeTickerSim (fun _ => 0)).weights.T2.blended = 40 := rfl
  refine ⟨hl, hs, hb, ?_⟩
  rw [hl, hs, hb]
  intro hcontra
  have := hcontra.2
  rw [max_self] at this
  norm_num at this

/-- C4 amended: in the real-prices variant, for every severity and every tag
the blended weight lies between longTerm and shortTerm; the simulated variant
violates this (see the counterexample). -/
theorem C4_blended_between :
    ∀ (s : Sev) (t : Tag),
      min ((weightsReal s).get t).longTerm ((weightsReal s).get t).shortTerm ≤
        ((weightsReal s).get t).blended ∧
      ((weightsReal s).get t).blended ≤
        max ((weightsReal s).get t).longTerm ((weightsReal s).get t).shortTerm := by
  intro s t
  cases s <;> cases t <;>
    simp [weightsReal, Weights.get] <;>
    constructor <;> norm_num [min_def, max_def]

/-- C5: the real-prices inference is a pure function of severity — CRITICAL
gives primary T2, secondary T3, contradicted T4, confidence 0.85; every other
severity gives primary T1, no secondary, no contradicted, confidence 0.6 —
and every analysed ticker's inference equals that function of its severity. -/
theorem C5_inference_of_severity :
    inferenceReal Sev.CRITICAL =
      ⟨Tag.T2, some Tag.T3, some Tag.T4, 85/100⟩ ∧
    (∀ s : Sev, s ≠ Sev.CRITICAL →
      inferenceReal s = ⟨Tag.T1, none, none, 6/10⟩) ∧
    (∀ (rand : ℕ → ℚ) (d : TickerData),
      (analyzeTickerReal rand d).inference =
        inferenceReal (analyzeTickerReal rand d).dislocation.severity) := by
  refine ⟨by simp [inferenceReal], ?_, fun rand d => rfl⟩
  intro s hs
  cases s <;> simp_all [inferenceReal]

/-- Witness for C5 at a concrete non-critical severity. -/
theorem C5_inference_of_severity_witness :
    inferenceReal Sev.NORMAL = ⟨Tag.T1, none, none, 6/10⟩ :=
  C5_inference_of_severity.2.1 Sev.NORMAL (by simp)

/-- C6 counterexample: the simulated variant with all random draws 0 produces
a result with severity HIGH and a positive todayReturn whose pattern is
GAP_DOWN — the claim requires GAP_DOWN only for HIGH with negative return. -/
theorem C6_pattern_counterexample :
    (analyzeTickerSim (fun _ => 0)).dislocation.severity = Sev.HIGH ∧
    0 < (analyzeTickerSim (fun _ => 0)).dislocation.metrics.todayReturn ∧
    (analyzeTickerSim (fun _ => 0)).dislocation.pattern = Pattern.GAP_DOWN := by
  refine ⟨simSeverity_zero, ?_, ?_⟩
  · show (0 : ℚ) < simChange (fun _ => 0)
    rw [simChange_zero]
    norm_num
  · show simPattern (simChange (fun _ => 0)) = Pattern.GAP_DOWN
    rw [simChange_zero]
    unfold simPattern
    rw [abs_of_nonneg (by norm_num : (0 : ℚ) ≤ 263/50)]
    norm_num

/-- C6 amended: in the real-prices variant the pattern is DISTRIBUTION
exactly when severity is CRITICAL and NORMAL otherwise — GAP_DOWN is never
produced; in the simulated variant the pattern is GAP_DOWN exactly when
the absolute change exceeds 5 (regardless of sign) and DISTRIBUTION is never
produced. -/
theorem C6_pattern_characterisation :
    (∀ s : Sev, patternReal s = Pattern.DISTRIBUTION ↔ s = Sev.CRITICAL) ∧
    (∀ s : Sev, patternReal s ≠ Pattern.GAP_DOWN) ∧
    (∀ s : Sev, patternReal s = Pattern.NORMAL ↔ s ≠ Sev.CRITICAL) ∧
    (∀ ret : ℚ, simPattern ret = Pattern.GAP_DOWN ↔ |ret| > 5) ∧
    (∀ ret : ℚ, simPattern ret ≠ Pattern.DISTRIBUTION) := by
  refine ⟨?_, ?_, ?_, ?_, ?_⟩
  · intro s; cases s <;> simp [patternReal]
  · intro s; cases s <;> simp [patternReal]
  · intro s; cases s <;> simp [patternReal]
  · intro ret; unfold simPattern; split_ifs with h <;> simp [h]
  · intro ret; unfold simPattern; split_ifs <;> simp

/-- C7: the real-prices classifier is deterministic — its result does not
depend on the random source at all, so two invocations on identical ticker
data agree — while the simulated variant's result does change with the
random draws (the behaviour the spec prohibits carrying over). -/
theorem C7_deterministic :
    (∀ (r1 r2 : ℕ → ℚ) (d : TickerData),
      analyzeTickerReal r1 d = analyzeTickerReal r2 d) ∧
    (∃ r1 r2 : ℕ → ℚ, analyzeTickerSim r1 ≠ analyzeTickerSim r2) := by
  refine ⟨fun r1 r2 d => rfl, ⟨fun _ => 0, fun _ => 1/2, fun heq => ?_⟩⟩
  have h := congrArg (fun z => z.dislocation.severity) heq
  have h0 : (analyzeTickerSim (fun _ => 0)).dislocation.severity = Sev.HIGH :=
    simSeverity_zero
  have h2 : (analyzeTickerSim (fun _ => 1/2)).dislocation.severity = Sev.NORMAL :=
    simSeverity_half
  simp only [h0, h2] at h
  exact Sev.noConfusion h

/-- A live-price overlay entry: `p` current price, `pc` previous close,
`v` volume. -/
structure LiveQuote where
  p : ℚ
  pc : ℚ
  v : ℚ

/-- Per-ticker static data used by `buildPriceData` in the batch runner. -/
structure StockData where
  price : Option ℚ
  priceHistory : List ℚ

/-- JavaScript array indexing with a possibly negative index:
`arr[i]` is undefined when `i < 0` or `i ≥ arr.length`. -/
def jsIndex (l : List ℚ) (i : ℤ) : Option ℚ :=
  if i < 0 then none else l.get? i.toNat

/-- Embeds `livePrice?.p || stockData.price || priceHistory[priceHistory.length - 1] || 100`. -/
def buildCurrentPrice (live : Option LiveQuote) (stock : StockData) : ℚ :=
  jsOrQ (live.map (·.p)) (jsOrQ stock.price (jsOrQ stock.priceHistory.getLast? 100))

/-- Embeds `livePrice?.pc || priceHistory[priceHistory.length - 2] || currentPrice`. -/
def buildPreviousPrice (live : Option LiveQuote) (stock : StockData) : ℚ :=
  jsOrQ (live.map (·.pc))
    (jsOrQ (jsIndex stock.priceHistory ((stock.priceHistory.length : ℤ) - 2))
      (buildCurrentPrice live stock))

/-- Embeds `Math.max(...priceHistory, currentPrice)` in `buildPriceData`. -/
def buildPeakPrice (live : Option LiveQuote) (stock : StockData) : ℚ :=
  stock.priceHistory.foldr max (buildCurrentPrice live stock)

/-- C2 counterexample: in the real-prices variant a ticker with empty
priceHistory (price 100, no live previous price) has peakPrice 250, not the
current price, its drawdown is -60, and even a zero daily return is
classified CRITICAL — the drawdown condition does trigger the escalation. -/
theorem C2_empty_history_counterexample :
    realPeak ⟨100, none, []⟩ ≠ (100 : ℚ) ∧
    realDrawdown ⟨100, none, []⟩ = -60 ∧
    severityOf 0 (realDrawdown ⟨100, none, []⟩) = Sev.CRITICAL := by
  have hpeak : realPeak ⟨100, none, []⟩ = 250 := by
    show (100 : ℚ) * (5/2) = 250
    norm_num
  have hdd : realDrawdown ⟨100, none, []⟩ = -60 := by
    unfold realDrawdown drawdownPct
    rw [hpeak]
    have harg : ((100 : ℚ) - 250) / 250 * 100 = -60 := by norm_num
    rw [harg]
    exact @toFixed1_eval (-60) (-60) (-600) (by norm_num) (by norm_num) (by norm_num)
  refine ⟨by rw [hpeak]; norm_num, hdd, ?_⟩
  rw [hdd]
  unfold severityOf
  rw [if_pos (Or.inr (by norm_num))]

/-- C2 amended: in `buildPriceData` of the batch runner, an empty
priceHistory gives peakPrice = currentPrice, the drawdown of a price from
itself is 0, and a zero drawdown never fires either drawdown clause (severity
is then decided by the return alone); but in the real-prices variant, an
empty priceHistory gives peakPrice = 2.5 × currentPrice, so drawdownPct is
-60 and the drawdown condition alone forces CRITICAL. -/
theorem C2_empty_history_amended :
    (∀ (live : Option LiveQuote) (stock : StockData), stock.priceHistory = [] →
      buildPeakPrice live stock = buildCurrentPrice live stock) ∧
    (∀ current : ℚ, current ≠ 0 → drawdownPct current current = 0) ∧
    (∀ ret : ℚ, severityOf ret 0 = Sev.CRITICAL ↔ |ret| > 8) ∧
    (∀ ret : ℚ, severityOf ret 0 = Sev.HIGH ↔ (¬ |ret| > 8 ∧ |ret| > 5)) ∧
    (∀ d : TickerData, d.priceHistory = [] →
      realPeak d = d.price * (5/2)) ∧
    (∀ d : TickerData, d.priceHistory = [] → 0 < d.price →
      realDrawdown d = -60 ∧ severityOf 0 (realDrawdown d) = Sev.CRITICAL) := by
  refine ⟨?_, ?_, ?_, ?_, ?_, ?_⟩
  · intro live stock h
    unfold buildPeakPrice
    rw [h, List.foldr_nil]
  · intro current hc
    unfold drawdownPct
    have harg : (current - current) / current * 100 = 0 := by
      rw [sub_self, zero_div, zero_mul]
    rw [harg]
    exact @toFixed1_eval 0 0 0 (by norm_num) (by norm_num) (by norm_num)
  · intro ret
    unfold severityOf
    have h40 : ¬ ((0 : ℚ) < -40) := by norm_num
    have h25 : ¬ ((0 : ℚ) < -25) := by norm_num
    simp only [show ((0:ℚ) < -40) ↔ False from iff_false_intro h40,
      show ((0:ℚ) < -25) ↔ False from iff_false_intro h25, or_false]
    split_ifs with h1 h2 <;> simp_all
  · intro ret
    unfold severityOf
    have h40 : ¬ ((0 : ℚ) < -40) := by norm_num
    have h25 : ¬ ((0 : ℚ) < -25) := by norm_num
    simp only [show ((0:ℚ) < -40) ↔ False from iff_false_intro h40,
      show ((0:ℚ) < -25) ↔ False from iff_false_intro h25, or_false]
    split_ifs with h1 h2 <;> simp_all
  · intro d h
    unfold realPeak
    rw [h, List.foldr_nil]
  · intro d h hp
    have hne : d.price ≠ 0 := ne_of_gt hp
    have hpeak : realPeak d = d.price * (5/2) := by
      unfold realPeak
      rw [h, List.foldr_nil]
    have harg : (d.price - d.price * (5/2)) / (d.price * (5/2)) * 100 = -60 := by
      field_simp
      ring
    have hdd : realDrawdown d = -60 := by
      unfold realDrawdown drawdownPct
      rw [hpeak, harg]
      exact @toFixed1_eval (-60) (-60) (-600) (by norm_num) (by norm_num) (by norm_num)
    refine ⟨hdd, ?_⟩
    rw [hdd]
    unfold severityOf
    rw [if_pos (Or.inr (by norm_num))]

/-- Witness for C2 amended at concrete inputs. -/
theorem C2_empty_history_amended_witness :
    buildPeakPrice none ⟨some 100, []⟩ = buildCurrentPrice none ⟨some 100, []⟩ ∧
    drawdownPct 100 100 = 0 ∧
    realPeak ⟨100, none, []⟩ = 100 * (5/2) ∧
    (realDrawdown ⟨100, none, []⟩ = -60 ∧
      severityOf 0 (realDrawdown ⟨100, none, []⟩) = Sev.CRITICAL) :=
  ⟨C2_empty_history_amended.1 none ⟨some 100, []⟩ rfl,
   C2_empty_history_amended.2.1 100 (by norm_num),
   C2_empty_history_amended.2.2.2.2.1 ⟨100, none, []⟩ rfl,
   C2_empty_history_amended.2.2.2.2.2 ⟨100, none, []⟩ rfl (by norm_num)⟩

/-- What the (external) per-ticker analysis step of the batch runner yields
for one ticker: `noData` when the ticker has no STOCK_DATA entry, `err` when
the analysis throws with a message, `ok` with the analysed severity. -/
inductive Outcome
  | noData
  | err (msg : String)
  | ok (sev : Sev)
deriving DecidableEq, Repr

/-- The summary object accumulated by the batch runner. -/
structure Summary where
  critical : ℕ
  high : ℕ
  moderate : ℕ
  normal : ℕ
  errors : List (String × String)
deriving DecidableEq, Repr

/-- The `switch (analysis.dislocation.severity)` counter update. -/
def bumpCount (s : Summary) (sev : Sev) : Summary :=
  match sev with
  | .CRITICAL => { s with critical := s.critical + 1 }
  | .HIGH => { s with high := s.high + 1 }
  | .MODERATE => { s with moderate := s.moderate + 1 }
  | .NORMAL => { s with normal := s.normal + 1 }

/-- The error entry a ticker contributes, if any. -/
def errOf : String × Outcome → Option (String × String)
  | (t, .noData) => some (t, "No data found")
  | (t, .err m) => some (t, m)
  | (_, .ok _) => none

/-- The results entry a ticker contributes, if any. -/
def okOf : String × Outcome → Option (String × Sev)
  | (t, .ok s) => some (t, s)
  | (_, .noData) => none
  | (_, .err _) => none

/-- Whether a ticker's analysis succeeded. -/
def isOk : String × Outcome → Bool
  | (_, .ok _) => true
  | _ => false

/-- The summary before any ticker is processed. -/
def emptySummary : Summary := ⟨0, 0, 0, 0, []⟩

/-- The main loop of the batch runner over the ticker list: a missing
STOCK_DATA entry or a thrown analysis appends `{ticker, error}` to
`summary.errors` and continues; a successful analysis bumps the severity
counter and stores the result. -/
def runBatch : List (String × Outcome) → Summary × List (String × Sev)
  | [] => (emptySummary, [])
  | (t, o) :: rest =>
    let acc := runBatch rest
    match o with
    | .noData => ({ acc.1 with errors := (t, "No data found") :: acc.1.errors }, acc.2)
    | .err m => ({ acc.1 with errors := (t, m) :: acc.1.errors }, acc.2)
    | .ok sev => (bumpCount acc.1 sev, (t, sev) :: acc.2)

/-- Embeds `process.exit(summary.criticalDislocations > 0 ? 1 : 0)`. -/
def exitCode (s : Summary) : ℕ := if 0 < s.critical then 1 else 0

lemma bumpCount_errors (s : Summary) (sev : Sev) :
    (bumpCount s sev).errors = s.errors := by
  cases sev <;> rfl

lemma runBatch_errors (l : List (String × Outcome)) :
    (runBatch l).1.errors = l.filterMap errOf := by
  induction l with
  | nil => rfl
  | cons hd tl ih =>
    obtain ⟨t, o⟩ := hd
    cases o <;> simp [runBatch, errOf, bumpCount_errors, ih]

lemma runBatch_results (l : List (String × Outcome)) :
    (runBatch l).2 = l.filterMap okOf := by
  induction l with
  | nil => rfl
  | cons hd tl ih =>
    obtain ⟨t, o⟩ := hd
    cases o <;> simp [runBatch, okOf, ih]

lemma runBatch_critical_pos (l : List (String × Outcome)) :
    0 < (runBatch l).1.critical ↔ ∃ e ∈ l, e.2 = Outcome.ok Sev.CRITICAL := by
  induction l with
  | nil => simp [runBatch, emptySummary]
  | cons hd tl ih =>
    obtain ⟨t, o⟩ := hd
    cases o with
    | noData => simp [runBatch, ih]
    | err m => simp [runBatch, ih]
    | ok sev => cases sev <;> simp [runBatch, bumpCount, ih]

lemma runBatch_critical_filter (l : List (String × Outcome)) :
    (runBatch (l.filter isOk)).1.critical = (runBatch l).1.critical := by
  induction l with
  | nil => rfl
  | cons hd tl ih =>
    obtain ⟨t, o⟩ := hd
    cases o with
    | noData => simpa [List.filter_cons, isOk, runBatch] using ih
    | err m => simpa [List.filter_cons, isOk, runBatch] using ih
    | ok sev => cases sev <;> simp [List.filter_cons, isOk, runBatch, bumpCount, ih]

lemma runBatch_results_filter (l : List (String × Outcome)) :
    (runBatch (l.filter isOk)).2 = (runBatch l).2 := by
  induction l with
  | nil => rfl
  | cons hd tl ih =>
    obtain ⟨t, o⟩ := hd
    cases o <;> simp [List.filter_cons, isOk, runBatch, ih]

lemma runBatch_length (l : List (String × Outcome)) :
    (runBatch l).1.errors.length + (runBatch l).2.length = l.length := by
  induction l with
  | nil => rfl
  | cons hd tl ih =>
    obtain ⟨t, o⟩ := hd
    cases o <;> simp [runBatch, bumpCount_errors] <;> omega

/-- C8: the batch runner exits with code 1 exactly when at least one ticker
analysed CRITICAL, and with code 0 otherwise; dropping every error entry
from the batch leaves the exit code unchanged, so recorded per-ticker errors
never affect it. -/
theorem C8_exit_code :
    ∀ entries : List (String × Outcome),
      (exitCode (runBatch entries).1 = 1 ↔
        ∃ e ∈ entries, e.2 = Outcome.ok Sev.CRITICAL) ∧
      (exitCode (runBatch entries).1 = 0 ↔
        ¬ ∃ e ∈ entries, e.2 = Outcome.ok Sev.CRITICAL) ∧
      exitCode (runBatch (entries.filter isOk)).1 = exitCode (runBatch entries).1 := by
  intro entries
  refine ⟨?_, ?_, ?_⟩
  · rw [← runBatch_critical_pos entries]
    unfold exitCode
    split_ifs with h <;> simp [h]
  · rw [← runBatch_critical_pos entries]
    unfold exitCode
    split_ifs with h <;> simp [h]
  · unfold exitCode
    rw [runBatch_critical_filter]

/-- C9: every ticker whose analysis fails (no STOCK_DATA entry, or a thrown
analysis) contributes exactly its `{ticker, error}` entry to summary.errors,
in order; the results are exactly the successful tickers' results; every
entry of the batch is processed (errors and results partition the batch);
and removing the failing tickers leaves the other tickers' results
untouched. -/
theorem C9_errors_recorded_continue :
    ∀ entries : List (String × Outcome),
      (runBatch entries).1.errors = entries.filterMap errOf ∧
      (runBatch entries).2 = entries.filterMap okOf ∧
      (runBatch entries).1.errors.length + (runBatch entries).2.length =
        entries.length ∧
      (runBatch (entries.filter isOk)).2 = (runBatch entries).2 :=
  fun entries =>
    ⟨runBatch_errors entries, runBatch_results entries,
     runBatch_length entries, runBatch_results_filter entries⟩

/-- C10: an error entry for a ticker exists exactly when the ticker had no
STOCK_DATA entry (message "No data found") or its analysis threw; when price
fields are merely missing, defaults are silently substituted instead —
with no live quote and no `price` field, currentPrice falls back to the last
history point, or to 100 when the history is empty; with no live previous
close and fewer than two history points, previousPrice falls back to
currentPrice; and in the real-prices variant a missing previousPrice becomes
currentPrice * 1.1, which alone makes todayReturnPct = -9.09 and forces
severity CRITICAL, so a DislocationResult is still produced. -/
theorem C10_error_iff_and_fallbacks :
    (∀ (entries : List (String × Outcome)) (t m : String),
      (t, m) ∈ (runBatch entries).1.errors ↔
        ((t, Outcome.noData) ∈ entries ∧ m = "No data found") ∨
        (t, Outcome.err m) ∈ entries) ∧
    (∀ stock : StockData, stock.price = none → stock.priceHistory = [] →
      buildCurrentPrice none stock = 100) ∧
    (∀ (stock : StockData) (pre : List ℚ) (x : ℚ), stock.price = none →
      stock.priceHistory = pre ++ [x] → x ≠ 0 →
      buildCurrentPrice none stock = x) ∧
    (∀ stock : StockData, stock.priceHistory.length ≤ 1 →
      buildPreviousPrice none stock = buildCurrentPrice none stock) ∧
    (∀ d : TickerData, d.previousPrice = none → 0 < d.price →
      realChange d = -(909/100) ∧ realSeverity d = Sev.CRITICAL) := by
  refine ⟨?_, ?_, ?_, ?_, ?_⟩
  · intro entries t m
    rw [runBatch_errors, List.mem_filterMap]
    constructor
    · rintro ⟨⟨t', o⟩, hmem, heq⟩
      cases o with
      | noData =>
        simp only [errOf, Option.some.injEq, Prod.mk.injEq] at heq
        obtain ⟨rfl, rfl⟩ := heq
        exact Or.inl ⟨hmem, rfl⟩
      | err m' =>
        simp only [errOf, Option.some.injEq, Prod.mk.injEq] at heq
        obtain ⟨rfl, rfl⟩ := heq
        exact Or.inr hmem
      | ok sev => exact absurd heq (by simp [errOf])
    · rintro (⟨hmem, rfl⟩ | hmem)
      · exact ⟨(t, .noData), hmem, rfl⟩
      · exact ⟨(t, .err m), hmem, rfl⟩
  · rintro ⟨p, hist⟩ hp hh
    simp only at hp hh
    subst hp
    subst hh
    rfl
  · rintro ⟨p, hist⟩ pre x hp hh hx
    simp only at hp hh
    subst hp
    subst hh
    unfold buildCurrentPrice
    simp [jsOrQ, List.getLast?_concat, hx]
  · rintro ⟨p, hist⟩ hlen
    match hist, hlen with
    | [], _ => rfl
    | [a], _ => rfl
    | a :: b :: rest, hlen => simp at hlen
  · intro d hprev hp
    have hne : d.price ≠ 0 := ne_of_gt hp
    have hprevEq : realPrev d = d.price * (11/10) := by
      unfold realPrev
      rw [hprev]
      rfl
    have harg : (d.price - d.price * (11/10)) / (d.price * (11/10)) * 100 =
        -(100/11) := by
      field_simp
      ring
    have hchange : realChange d = -(909/100) := by
      unfold realChange todayReturnPct
      rw [hprevEq, harg]
      exact @toFixed2_eval (-(100/11)) (-(909/100)) (-909)
        (by norm_num) (by norm_num) (by norm_num)
    refine ⟨hchange, ?_⟩
    unfold realSeverity
    rw [hchange]
    unfold severityOf
    rw [if_pos (Or.inl (by
      rw [abs_of_nonpos (by norm_num : (-(909/100) : ℚ) ≤ 0)]
      norm_num))]

/-- Witness for C10 at concrete inputs. -/
theorem C10_error_iff_and_fallbacks_witness :
    buildCurrentPrice none ⟨none, []⟩ = 100 ∧
    buildCurrentPrice none ⟨none, [92]⟩ = 92 ∧
    buildPreviousPrice none ⟨none, [92]⟩ = buildCurrentPrice none ⟨none, [92]⟩ ∧
    realChange ⟨100, none, []⟩ = -(909/100) ∧
    realSeverity ⟨100, none, []⟩ = Sev.CRITICAL :=
  ⟨C10_error_iff_and_fallbacks.2.1 ⟨none, []⟩ rfl rfl,
   C10_error_iff_and_fallbacks.2.2.1 ⟨none, [92]⟩ [] 92 rfl rfl (by norm_num),
   C10_error_iff_and_fallbacks.2.2.2.1 ⟨none, [92]⟩ (by norm_num),
   (C10_error_iff_and_fallbacks.2.2.2.2 ⟨100, none, []⟩ rfl (by norm_num)).1,
   (C10_error_iff_and_fallbacks.2.2.2.2 ⟨100, none, []⟩ rfl (by norm_num)).2⟩

end Continuum
